import Mathlib

set_option maxHeartbeats 1000000

/-!
Verification development for the layer animation & frame-sequencing engine of
`app/renderer/playwright_renderer.py`, plus the layer-normalisation step of
`app/directors/level_0/visual_layout_director_1.py`.

Numeric values (Python floats/ints) are modelled over `ℚ`/`ℤ`; the CSS strings
emitted by `_get_frame_css` are modelled as an explicit `StyleState` record
(opacity, spatial transform, transform-origin flag), abstracting only the
decimal formatting of the emitted string.
-/

/-- Python `int()` on a (rational-valued) float: truncation toward zero. -/
def pyInt (q : ℚ) : ℤ := if q < 0 then -⌊-q⌋ else ⌊q⌋

/-- The input clamp `t = max(0.0, min(1.0, t))` at the top of `_ease`. -/
def clamp01 (t : ℚ) : ℚ := max 0 (min 1 t)

/-- `_ease` from `playwright_renderer.py` (lines 200-218): the easing selector,
dispatching on the hyphen-spelled easing name, defaulting to ease-out. -/
def ease (t : ℚ) (easing : String) : ℚ :=
  let s := clamp01 t
  if easing = "linear" then s
  else if easing = "ease-in" then s * s
  else if easing = "ease-out" then 1 - (1 - s) ^ 2
  else if easing = "ease-in-out" then 3 * s * s - 2 * s * s * s
  else if easing = "ease-out-cubic" then 1 - (1 - s) ^ 3
  else if easing = "ease-out-back" then
    let c1 : ℚ := 170158 / 100000
    let c3 : ℚ := c1 + 1
    1 + c3 * (s - 1) ^ 3 + c1 * (s - 1) ^ 2
  else 1 - (1 - s) ^ 2

/-- The spatial part of a per-frame CSS state. -/
inductive Transform where
  | none
  | scale (s : ℚ)
  | translateY (y : ℚ)
  | translateX (x : ℚ)
deriving DecidableEq

/-- The style-state a frame's CSS string denotes: opacity, spatial transform,
and whether `transform-origin:center center` is set. -/
structure StyleState where
  opacity : ℚ
  transform : Transform
  originCenter : Bool
deriving DecidableEq

/-- `_get_frame_css` (lines 221-271): effect name + eased progress to
style-state. Branch order and formulas follow the source exactly. -/
def getFrameCss (effect : String) (progress : ℚ) : StyleState :=
  let p := progress
  if effect = "fade_in" then ⟨p, .none, false⟩
  else if effect = "scale_up" then ⟨p, .scale (3/10 + 7/10 * p), true⟩
  else if effect = "scale_down" then ⟨p, .scale (3/2 - 1/2 * p), true⟩
  else if effect = "slide_up" then ⟨p, .translateY (120 * (1 - p)), false⟩
  else if effect = "slide_down" then ⟨p, .translateY (-120 * (1 - p)), false⟩
  else if effect = "slide_left" then ⟨p, .translateX (120 * (1 - p)), false⟩
  else if effect = "slide_right" then ⟨p, .translateX (-120 * (1 - p)), false⟩
  else if effect = "bounce_in" then
    let s : ℚ :=
      if p < 3/5 then (p / (3/5)) * (115/100)
      else if p < 4/5 then 115/100 - ((p - 3/5) / (1/5)) * (20/100)
      else 95/100 + ((p - 4/5) / (1/5)) * (5/100)
    ⟨min (p * 2) 1, .scale s, true⟩
  else if effect = "fade_out" then ⟨1 - p, .none, false⟩
  else if effect = "scale_out" then ⟨1 - p, .scale (1 + 1/2 * p), true⟩
  else ⟨p, .none, false⟩

/-- The Frame Plan computed at the top of `render_animated_layer`
(lines 317-321). -/
structure FramePlan where
  delay_frames : ℤ
  anim_frames : ℤ
  hold_frames : ℤ
  total_frames : ℤ
deriving DecidableEq

/-- Frame-count arithmetic of `render_animated_layer` (lines 317-321):
`delay_frames = int((delay_ms / 1000) * fps)`,
`anim_frames = max(1, int((duration_ms / 1000) * fps))`, `hold_frames = 2`. -/
def framePlan (duration_ms delay_ms fps : ℚ) : FramePlan :=
  let delay_frames := pyInt ((delay_ms / 1000) * fps)
  let anim_frames := max 1 (pyInt ((duration_ms / 1000) * fps))
  let hold_frames := 2
  ⟨delay_frames, anim_frames, hold_frames, delay_frames + anim_frames + hold_frames⟩

/-- The per-frame style-state resolution of the frame loop in
`render_animated_layer` (lines 371-382): delay phase is `opacity:0;`,
hold phase is the effect at progress `1.0` (un-eased), animation phase eases
`t = (frame_idx - delay_frames) / max(anim_frames - 1, 1)`. -/
def frameStyle (effect easing : String) (delay_frames anim_frames frame_idx : ℤ) :
    StyleState :=
  if frame_idx < delay_frames then ⟨0, .none, false⟩
  else if frame_idx ≥ delay_frames + anim_frames then getFrameCss effect 1
  else
    let t : ℚ := ((frame_idx - delay_frames : ℤ) : ℚ) / ((max (anim_frames - 1) 1 : ℤ) : ℚ)
    getFrameCss effect (ease t easing)

/-! ### Stroke path sampler (`_extract_path_points`, lines 738-775)

`re.findall(r"[-+]?(?:\d+\.?\d*|\.\d+)", svg_path)` is modelled by a
left-to-right scanner over the string's characters: at each position it tries
to match an optional sign followed by either `digits [. digits*]` or
`. digits+` (greedy), advancing one character on failure, exactly as
`re.findall` does for this pattern. -/

/-- Longest digit prefix of a character list, and the rest. -/
def scanDigits : List Char → List Char × List Char
  | [] => ([], [])
  | c :: cs =>
    if c.isDigit then
      let (ds, rest) := scanDigits cs
      (c :: ds, rest)
    else ([], c :: cs)

/-- Numeric value of a digit string. -/
def natOfDigits (ds : List Char) : ℕ :=
  ds.foldl (fun acc c => 10 * acc + (c.toNat - '0'.toNat)) 0

/-- Value of `intPart.fracDigits` as a rational. -/
def fracVal (intPart : ℕ) (fracDigits : List Char) : ℚ :=
  (intPart : ℚ) + (natOfDigits fracDigits : ℚ) / (10 : ℚ) ^ fracDigits.length

/-- Match the unsigned body `\d+\.?\d*|\.\d+` at the head of the list. -/
def matchNumberBody (cs : List Char) : Option (ℚ × List Char) :=
  match scanDigits cs with
  | ([], _) =>
    match cs with
    | '.' :: rest =>
      match scanDigits rest with
      | ([], _) => none
      | (fds, rest2) => some (fracVal 0 fds, rest2)
    | _ => none
  | (ids, rest) =>
    match rest with
    | '.' :: rest2 =>
      let (fds, rest3) := scanDigits rest2
      some (fracVal (natOfDigits ids) fds, rest3)
    | _ => some ((natOfDigits ids : ℚ), rest)

/-- Match `[-+]?(?:\d+\.?\d*|\.\d+)` at the head of the list. -/
def matchSigned : List Char → Option (ℚ × List Char)
  | '-' :: rest => (matchNumberBody rest).map (fun qr => (-qr.1, qr.2))
  | '+' :: rest => matchNumberBody rest
  | cs => matchNumberBody cs

/-- One scan step per unit of fuel; every successful match consumes at least
one character, so fuel = initial length suffices. -/
def findNumbersAux : ℕ → List Char → List ℚ
  | 0, _ => []
  | _, [] => []
  | fuel + 1, c :: cs =>
    match matchSigned (c :: cs) with
    | some (q, rest) => q :: findNumbersAux fuel rest
    | none => findNumbersAux fuel cs

/-- `re.findall(r"[-+]?(?:\d+\.?\d*|\.\d+)", s)` converted to rationals. -/
def findNumbers (s : String) : List ℚ :=
  findNumbersAux s.length s.data

/-- `for i in range(0, len(numbers) - 1, 2): raw_points.append(...)`:
consecutive pairing, dropping an unpaired trailing number. -/
def pairUp : List ℚ → List (ℚ × ℚ)
  | x :: y :: rest => (x, y) :: pairUp rest
  | _ => []

/-- The degenerate-input fallback of `_extract_path_points`:
`[(i * 720 / num_points, 640) for i in range(num_points)]`. -/
def fallbackLine (num_points : ℕ) : List (ℚ × ℚ) :=
  (List.range num_points).map
    (fun i : ℕ => ((i : ℚ) * 720 / (num_points : ℚ), 640))

/-- `_extract_path_points` (lines 738-775): parse numbers, pair them, and
uniformly interpolate `num_points` samples across the polyline by segment
position. -/
def extractPathPoints (svg_path : String) (num_points : ℕ) : List (ℚ × ℚ) :=
  let numbers := findNumbers svg_path
  if numbers.length < 4 then fallbackLine num_points
  else
    let raw_points := pairUp numbers
    if raw_points.length < 2 then fallbackLine num_points
    else
      let total_segments := raw_points.length - 1
      (List.range num_points).map (fun i : ℕ =>
        let t : ℚ := (i : ℚ) / ((max (num_points - 1) 1 : ℕ) : ℚ)
        let seg : ℕ := min (pyInt (t * (total_segments : ℚ))).toNat (total_segments - 1)
        let seg_t : ℚ := t * (total_segments : ℚ) - (seg : ℚ)
        let p0 := raw_points.getD seg (0, 0)
        let p1 := raw_points.getD (min (seg + 1) (raw_points.length - 1)) (0, 0)
        (p0.1 + (p1.1 - p0.1) * seg_t, p0.2 + (p1.2 - p0.2) * seg_t))

/-! ### Reveal mask generator (`_generate_path_mask_html`, lines 699-735) -/

/-- `reveal_count = max(1, int(progress * len(points)))` (line 717). -/
def revealCount (progress : ℚ) (numPoints : ℕ) : ℕ :=
  max 1 (pyInt (progress * (numPoints : ℚ))).toNat

/-- `visible_points = points[:reveal_count]` (line 718). -/
def visiblePoints (points : List (ℚ × ℚ)) (progress : ℚ) : List (ℚ × ℚ) :=
  points.take (revealCount progress points.length)

/-! ### Stroke reveal pipeline (`_render_stroke_reveal`, lines 588-650) -/

/-- `total_frames = int((duration_ms / 1000) * fps)` (line 589). -/
def strokeTotalFrames (duration_ms fps : ℚ) : ℤ :=
  pyInt ((duration_ms / 1000) * fps)

/-- The ease-out-cubic hardcoded in the mask loop (line 648). -/
def strokeEased (progress : ℚ) : ℚ := 1 - (1 - progress) ^ 3

/-- Observable shape of a `_render_stroke_reveal` result: one HQ raster and
the eased progress value driving each mask frame (lines 645-648). -/
structure StrokeRevealModel where
  hqRasters : ℕ
  maskProgresses : List ℚ
deriving DecidableEq

/-- The frame loop of `_render_stroke_reveal`: one HQ screenshot, then for
each `frame in range(total_frames)`,
`progress = frame / max(total_frames - 1, 1)` eased with ease-out-cubic. -/
def strokeReveal (duration_ms fps : ℚ) : StrokeRevealModel :=
  let total_frames := strokeTotalFrames duration_ms fps
  ⟨1, (List.range total_frames.toNat).map (fun f : ℕ =>
      strokeEased ((f : ℚ) / ((max (total_frames - 1) 1 : ℤ) : ℚ)))⟩

/-! ### Scene compositor (`render_scene_layers`, lines 422-561) -/

/-- An animation descriptor as read from a layer dict. -/
structure AnimationDesc where
  effect : Option String
  duration_ms : Option ℚ
  delay_ms : Option ℚ
  easing : Option String
deriving DecidableEq

/-- A layer dict: `none` models an absent key. -/
structure Layer where
  id : Option String
  type : Option String
  html : Option String
  z_index : Option ℤ
  is_static : Option Bool
  animation : Option AnimationDesc
deriving DecidableEq

/-- The metadata record built for a rendered (non-stroke) layer
(lines 476-516), with the raster abstracted away. -/
structure RenderedLayer where
  id : String
  type : String
  z_index : ℤ
  is_static : Bool
  animation : Option AnimationDesc
deriving DecidableEq

/-- Per-layer metadata assembly in `render_scene_layers`:
`layer.get("id", "unknown")`, `layer.get("type", "unknown")`,
`layer.get("z_index", 100)`, `layer.get("is_static", True)`. -/
def renderLayerEntry (layer : Layer) : RenderedLayer :=
  ⟨layer.id.getD "unknown", layer.type.getD "unknown",
   layer.z_index.getD 100, layer.is_static.getD true, layer.animation⟩

/-- Observable shape of a scene render: ordered non-stroke layer records,
ordered stroke-reveal ids (`layer.get("id", "stroke")`), and the number of
warnings recorded for skipped layers. -/
structure SceneResult where
  scene_id : String
  layers : List RenderedLayer
  stroke_reveals : List String
  warnings : ℕ
deriving DecidableEq

/-- The layer loop of `render_scene_layers` (lines 475-555): stroke layers go
to `stroke_reveals`; a non-stroke layer with falsy `html` is skipped with one
warning; every other layer is rendered and appended in order. -/
def renderLoop : List Layer → List RenderedLayer × List String × ℕ
  | [] => ([], [], 0)
  | layer :: rest =>
    let (ls, ss, w) := renderLoop rest
    if layer.type.getD "unknown" = "stroke_reveal" then
      (ls, layer.id.getD "stroke" :: ss, w)
    else if layer.html.getD "" = "" then
      (ls, ss, w + 1)
    else
      (renderLayerEntry layer :: ls, ss, w)

/-- `render_scene_layers` assembled result (lines 557-561). -/
def renderSceneLayers (scene_id : String) (layers : List Layer) : SceneResult :=
  let (ls, ss, w) := renderLoop layers
  ⟨scene_id, ls, ss, w⟩

/-! ### Director validation (`_validate_result`, visual_layout_director_1.py
lines 387-414): truncation to 15 layers, required `html`, and the
deterministic `z_index`/`id` auto-assignment. -/

/-- Per-layer step of `_validate_result` for scene `i`, layer `j`:
error when `html` is absent on a non-stroke layer; otherwise assign
`z_index = 100 + j * 50` and `id = "layer_{i}_{j}"` when absent. -/
def validateLayer (i j : ℕ) (layer : Layer) : Except String Layer :=
  if layer.html.isNone ∧ layer.type ≠ some "stroke_reveal" then
    .error ("Scene " ++ toString i ++ ", Layer " ++ toString j ++
      ": campo html obrigatorio (exceto para stroke_reveal)")
  else
    .ok { layer with
          z_index := some (layer.z_index.getD (100 + (j : ℤ) * 50)),
          id := some (layer.id.getD ("layer_" ++ toString i ++ "_" ++ toString j)) }

/-- The inner `for j, layer in enumerate(layers)` loop, from index `j`;
a raised `ValueError` propagates as `Except.error`. -/
def validateLayersFrom (i : ℕ) : ℕ → List Layer → Except String (List Layer)
  | _, [] => .ok []
  | j, l :: rest =>
    match validateLayer i j l with
    | .error e => .error e
    | .ok l' =>
      match validateLayersFrom i (j + 1) rest with
      | .error e => .error e
      | .ok rest' => .ok (l' :: rest')

/-- `_validate_result` restricted to one scene's layer list: truncate to 15
layers, then validate/normalize each. -/
def validateSceneLayers (i : ℕ) (layers : List Layer) : Except String (List Layer) :=
  validateLayersFrom i 0 (layers.take 15)

/-- The effect names of the spec's §4.2 table (= the names `_get_frame_css`
matches explicitly). -/
def effectTableNames : List String :=
  ["fade_in", "fade_out", "scale_up", "scale_down", "scale_out",
   "slide_up", "slide_down", "slide_left", "slide_right", "bounce_in"]

/-- The spec's §4.2 closed-form effect table, written from the spec's words
(for comparison with `getFrameCss`): opacity and spatial transform per row;
`bounce_in` interpolates scale 0→1.15 over [0,0.6], 1.15→0.95 over [0.6,0.8],
0.95→1.0 over [0.8,1.0]; unknown effect falls back to `fade_in`. -/
def specEffectTable (effect : String) (p : ℚ) : StyleState :=
  if effect = "fade_in" then ⟨p, .none, false⟩
  else if effect = "fade_out" then ⟨1 - p, .none, false⟩
  else if effect = "scale_up" then ⟨p, .scale (3/10 + 7/10 * p), true⟩
  else if effect = "scale_down" then ⟨p, .scale (3/2 - 1/2 * p), true⟩
  else if effect = "scale_out" then ⟨1 - p, .scale (1 + 1/2 * p), true⟩
  else if effect = "slide_up" then ⟨p, .translateY (120 * (1 - p)), false⟩
  else if effect = "slide_down" then ⟨p, .translateY (-120 * (1 - p)), false⟩
  else if effect = "slide_left" then ⟨p, .translateX (120 * (1 - p)), false⟩
  else if effect = "slide_right" then ⟨p, .translateX (-120 * (1 - p)), false⟩
  else if effect = "bounce_in" then
    ⟨min (2 * p) 1, .scale (
      if p ≤ 3/5 then (115/100) * ((p - 0) / (3/5 - 0))
      else if p ≤ 4/5 then 115/100 + (95/100 - 115/100) * ((p - 3/5) / (4/5 - 3/5))
      else 95/100 + (1 - 95/100) * ((p - 4/5) / (1 - 4/5))), true⟩
  else ⟨p, .none, false⟩

/-- A concrete non-stroke layer carrying `html` but no `id`/`z_index`. -/
def sampleLayer : Layer := ⟨none, some "text", some "<div>x</div>", none, none, none⟩


/-! ## Helper lemmas -/

lemma pyInt_eq_floor {q : ℚ} (h : 0 ≤ q) : pyInt q = ⌊q⌋ := by
  unfold pyInt
  rw [if_neg (not_lt.mpr h)]

lemma clamp01_nonneg (t : ℚ) : 0 ≤ clamp01 t := le_max_left 0 _

lemma clamp01_le_one (t : ℚ) : clamp01 t ≤ 1 :=
  max_le (by norm_num) (min_le_left 1 t)

lemma clamp01_eq_self {t : ℚ} (h0 : 0 ≤ t) (h1 : t ≤ 1) : clamp01 t = t := by
  unfold clamp01
  rw [min_eq_right h1, max_eq_right h0]

lemma clamp01_idem (t : ℚ) : clamp01 (clamp01 t) = clamp01 t :=
  clamp01_eq_self (clamp01_nonneg t) (clamp01_le_one t)

/-! ## C1 — Frame Plan arithmetic -/

/-- **C1, counterexample**: the code truncates `(delay_ms / 1000) * fps` with
`int()`, it does not round: at `delay_ms = 160, fps = 10` the value `1.6`
yields `delay_frames = 1`, while `round` gives `2`. -/
theorem framePlan_round_counterexample :
    (framePlan 500 160 10).delay_frames ≠ round ((160 : ℚ) / 1000 * 10) := by
  have h : (framePlan 500 160 10).delay_frames = 1 := by
    norm_num [framePlan, pyInt]
  rw [h, round_eq]
  norm_num

/-- **C1 (amended)**: the Frame Plan has
`delay_frames = ⌊delay_ms / 1000 * fps⌋` (truncation, not rounding),
`anim_frames = max 1 ⌊duration_ms / 1000 * fps⌋`, `hold_frames = 2` exactly,
`total_frames` is their sum, and for `duration_ms = 500, delay_ms = 0,
fps = 30` this gives `anim_frames = 15`, `delay_frames = 0`,
`total_frames = 17`. -/
theorem framePlan_truncation_spec (duration_ms delay_ms fps : ℚ)
    (hdur : 0 ≤ duration_ms) (hdel : 0 ≤ delay_ms) (hfps : 0 ≤ fps) :
    (framePlan duration_ms delay_ms fps).delay_frames = ⌊delay_ms / 1000 * fps⌋ ∧
    (framePlan duration_ms delay_ms fps).anim_frames = max 1 ⌊duration_ms / 1000 * fps⌋ ∧
    (framePlan duration_ms delay_ms fps).hold_frames = 2 ∧
    (framePlan duration_ms delay_ms fps).total_frames =
      (framePlan duration_ms delay_ms fps).delay_frames +
      (framePlan duration_ms delay_ms fps).anim_frames +
      (framePlan duration_ms delay_ms fps).hold_frames ∧
    framePlan 500 0 30 = ⟨0, 15, 2, 17⟩ := by
  refine ⟨?_, ?_, rfl, rfl, ?_⟩
  · show pyInt (delay_ms / 1000 * fps) = _
    exact pyInt_eq_floor (mul_nonneg (div_nonneg hdel (by norm_num)) hfps)
  · show max 1 (pyInt (duration_ms / 1000 * fps)) = _
    rw [pyInt_eq_floor (mul_nonneg (div_nonneg hdur (by norm_num)) hfps)]
  · norm_num [framePlan, pyInt]

/-- Witness for C1's amended theorem at `duration_ms = 500, delay_ms = 0,
fps = 30`. -/
theorem framePlan_truncation_spec_witness :
    (0 : ℚ) ≤ 500 ∧
    ((framePlan 500 0 30).delay_frames = ⌊(0 : ℚ) / 1000 * 30⌋ ∧
     (framePlan 500 0 30).anim_frames = max 1 ⌊(500 : ℚ) / 1000 * 30⌋ ∧
     (framePlan 500 0 30).hold_frames = 2 ∧
     (framePlan 500 0 30).total_frames =
       (framePlan 500 0 30).delay_frames + (framePlan 500 0 30).anim_frames +
       (framePlan 500 0 30).hold_frames ∧
     framePlan 500 0 30 = ⟨0, 15, 2, 17⟩) :=
  ⟨by norm_num,
   framePlan_truncation_spec 500 0 30 (by norm_num) (by norm_num) (by norm_num)⟩

/-! ## C3 — per-frame phase resolution -/

/-- **C3**: for every frame index in `[0, total_frames)` of an animated layer
(so with `delay_frames ≥ 0` and `anim_frames ≥ 1`, as the Frame Plan
guarantees): before `delay_frames` the style-state is fully transparent with
no transform; during the animation phase it is the effect mapper applied to
the eased `t = (f - delay_frames) / max (anim_frames - 1) 1`; from
`delay_frames + anim_frames` on it is the mapper at progress exactly `1`,
un-eased. -/
theorem frameStyle_phases (effect easing : String) (delay_frames anim_frames f : ℤ)
    (_hdel : 0 ≤ delay_frames) (hanim : 1 ≤ anim_frames) (_hf : 0 ≤ f) :
    (f < delay_frames →
      frameStyle effect easing delay_frames anim_frames f = ⟨0, .none, false⟩) ∧
    (delay_frames ≤ f → f < delay_frames + anim_frames →
      frameStyle effect easing delay_frames anim_frames f =
        getFrameCss effect
          (ease (((f - delay_frames : ℤ) : ℚ) / ((max (anim_frames - 1) 1 : ℤ) : ℚ))
            easing)) ∧
    (delay_frames + anim_frames ≤ f →
      frameStyle effect easing delay_frames anim_frames f = getFrameCss effect 1) := by
  refine ⟨fun h => ?_, fun h1 h2 => ?_, fun h => ?_⟩ <;>
    · unfold frameStyle
      split_ifs <;> first | rfl | omega

/-- Witness for C3 at `effect = fade_in`, `easing = linear`,
`delay_frames = 2`, `anim_frames = 3`, at frames 1, 3 and 6. -/
theorem frameStyle_phases_witness :
    frameStyle "fade_in" "linear" 2 3 1 = ⟨0, .none, false⟩ ∧
    frameStyle "fade_in" "linear" 2 3 3 =
      getFrameCss "fade_in"
        (ease ((((3 : ℤ) - 2 : ℤ) : ℚ) / ((max ((3 : ℤ) - 1) 1 : ℤ) : ℚ)) "linear") ∧
    frameStyle "fade_in" "linear" 2 3 6 = getFrameCss "fade_in" 1 :=
  ⟨(frameStyle_phases "fade_in" "linear" 2 3 1 (by norm_num) (by norm_num)
      (by norm_num)).1 (by norm_num),
   (frameStyle_phases "fade_in" "linear" 2 3 3 (by norm_num) (by norm_num)
      (by norm_num)).2.1 (by norm_num) (by norm_num),
   (frameStyle_phases "fade_in" "linear" 2 3 6 (by norm_num) (by norm_num)
      (by norm_num)).2.2 (by norm_num)⟩

/-! ## C5 — easing monotonicity and bounds -/

/-- **C5**: on `[0,1]`, `ease` is monotone non-decreasing for every kind other
than `"ease-out-back"` (in particular for the linear, ease-in, ease-out,
ease-in-out and ease-out-cubic curves, under any spelling); its output lies in
`[0,1]` for every kind except `"ease-out-back"`, whose output stays
nonnegative and exceeds `1` by at most `c1 = 1.70158`; and the input clamp
makes `ease` insensitive to inputs outside `[0,1]`, hence total. -/
theorem ease_monotone_bounded :
    (∀ kind, kind ≠ "ease-out-back" → ∀ a b : ℚ, 0 ≤ a → a ≤ b → b ≤ 1 →
      ease a kind ≤ ease b kind) ∧
    (∀ (t : ℚ) (kind : String), kind ≠ "ease-out-back" →
      0 ≤ ease t kind ∧ ease t kind ≤ 1) ∧
    (∀ t : ℚ, 0 ≤ ease t "ease-out-back" ∧
      ease t "ease-out-back" ≤ 1 + 170158/100000) ∧
    (∀ (t : ℚ) (kind : String), ease t kind = ease (clamp01 t) kind) := by
  refine ⟨?_, ?_, ?_, ?_⟩
  · intro kind hk a b h0 hab hb1
    have ha1 : a ≤ 1 := hab.trans hb1
    have hb0 : 0 ≤ b := h0.trans hab
    have ca : clamp01 a = a := clamp01_eq_self h0 ha1
    have cb : clamp01 b = b := clamp01_eq_self hb0 hb1
    simp only [ease, ca, cb]
    split_ifs with h1 h2 h3 h4 h5
    · exact hab
    · nlinarith
    · nlinarith [mul_nonneg (sub_nonneg.2 hab)
        (by linarith : (0 : ℚ) ≤ 2 - a - b)]
    · nlinarith [mul_nonneg (mul_nonneg (sub_nonneg.2 hab) h0) (sub_nonneg.2 ha1),
        mul_nonneg (mul_nonneg (sub_nonneg.2 hab) hb0) (sub_nonneg.2 hb1),
        mul_nonneg (mul_nonneg (sub_nonneg.2 hab) h0) (sub_nonneg.2 hb1),
        mul_nonneg (mul_nonneg (sub_nonneg.2 hab) hb0) (sub_nonneg.2 ha1)]
    · have hcube : (1 - b) ^ 3 ≤ (1 - a) ^ 3 :=
        pow_le_pow_left₀ (by linarith) (by linarith) 3
      linarith
    · nlinarith [mul_nonneg (sub_nonneg.2 hab)
        (by linarith : (0 : ℚ) ≤ 2 - a - b)]
  · intro t kind hk
    have hs0 : 0 ≤ clamp01 t := clamp01_nonneg t
    have hs1 : clamp01 t ≤ 1 := clamp01_le_one t
    simp only [ease]
    split_ifs with h1 h2 h3 h4 h5
    · exact ⟨hs0, hs1⟩
    · exact ⟨mul_nonneg hs0 hs0, by nlinarith⟩
    · constructor <;> nlinarith [sq_nonneg (1 - clamp01 t)]
    · constructor
      · nlinarith [sq_nonneg (clamp01 t)]
      · nlinarith [mul_nonneg (sq_nonneg (1 - clamp01 t))
          (by linarith : (0 : ℚ) ≤ 2 * clamp01 t + 1)]
    · constructor
      · have hc : (1 - clamp01 t) ^ 3 ≤ 1 :=
          pow_le_one₀ (by linarith) (by linarith)
        linarith
      · have := pow_nonneg (by linarith : (0 : ℚ) ≤ 1 - clamp01 t) 3
        linarith
    · constructor <;> nlinarith [sq_nonneg (1 - clamp01 t)]
  · intro t
    have hs0 : 0 ≤ clamp01 t := clamp01_nonneg t
    have hs1 : clamp01 t ≤ 1 := clamp01_le_one t
    have hback : ease t "ease-out-back" =
        1 + (170158/100000 + 1) * (clamp01 t - 1) ^ 3 +
          (170158/100000) * (clamp01 t - 1) ^ 2 := by
      simp [ease]
    rw [hback]
    constructor
    · nlinarith [mul_nonneg hs0
        (by nlinarith [sq_nonneg (clamp01 t - 1)] :
          (0 : ℚ) ≤ (170158/100000 + 1) * (clamp01 t - 1) ^ 2 - (clamp01 t - 1) + 1)]
    · have hu2 : (clamp01 t - 1) ^ 2 ≤ 1 := by nlinarith
      have hu3 : (clamp01 t - 1) ^ 3 ≤ 0 :=
        Odd.pow_nonpos (by decide) (by linarith)
      nlinarith [hu2, hu3]
  · intro t kind
    unfold ease
    rw [clamp01_idem]

/-- Witness for C5 at concrete inputs: monotonicity of `"linear"` between
`1/4` and `1/2`, bounds of `"ease-in"` at `1/2`, and the clamp identity at
`t = 2`. -/
theorem ease_monotone_bounded_witness :
    ease (1/4) "linear" ≤ ease (1/2) "linear" ∧
    (0 ≤ ease (1/2) "ease-in" ∧ ease (1/2) "ease-in" ≤ 1) ∧
    (0 ≤ ease (1/2) "ease-out-back" ∧
      ease (1/2) "ease-out-back" ≤ 1 + 170158/100000) ∧
    ease 2 "ease-in" = ease (clamp01 2) "ease-in" :=
  ⟨ease_monotone_bounded.1 "linear" (by decide) (1/4) (1/2) (by norm_num)
      (by norm_num) (by norm_num),
   ease_monotone_bounded.2.1 (1/2) "ease-in" (by decide),
   ease_monotone_bounded.2.2.1 (1/2),
   ease_monotone_bounded.2.2.2 2 "ease-in"⟩

/-! ## C10 — the easing selector matches only hyphen-spelled names -/

/-- **C10**: any easing string other than the six hyphen-spelled names —
including the underscore spellings `"ease_in"`, `"ease_in_out"`, … — selects
the default ease-out curve `1 - (1 - t)^2`; in particular an
underscore-spelled easing never selects its named curve. -/
theorem ease_default_for_unknown_names :
    (∀ (t : ℚ) (kind : String),
      kind ∉ (["linear", "ease-in", "ease-out", "ease-in-out", "ease-out-cubic",
        "ease-out-back"] : List String) →
      0 ≤ t → t ≤ 1 → ease t kind = 1 - (1 - t) ^ 2) ∧
    ease (1/2) "ease_in" = 1 - (1 - 1/2) ^ 2 ∧
    ease (1/2) "ease_in" ≠ (1/2) ^ 2 ∧
    ease (1/2) "ease_in_out" = 1 - (1 - 1/2) ^ 2 ∧
    ease (1/2) "ease_in_out" ≠ 3 * (1/2) ^ 2 - 2 * (1/2) ^ 3 := by
  have hev : ∀ kind : String, kind ≠ "linear" → kind ≠ "ease-in" →
      kind ≠ "ease-out" → kind ≠ "ease-in-out" → kind ≠ "ease-out-cubic" →
      kind ≠ "ease-out-back" → ∀ t : ℚ, 0 ≤ t → t ≤ 1 →
      ease t kind = 1 - (1 - t) ^ 2 := by
    intro kind n1 n2 n3 n4 n5 n6 t h0 h1
    simp only [ease]
    rw [clamp01_eq_self h0 h1, if_neg n1, if_neg n2, if_neg n3, if_neg n4,
      if_neg n5, if_neg n6]
  refine ⟨?_, ?_, ?_, ?_, ?_⟩
  · intro t kind hmem h0 h1
    simp only [List.mem_cons, List.not_mem_nil, or_false, not_or] at hmem
    obtain ⟨n1, n2, n3, n4, n5, n6⟩ := hmem
    exact hev kind n1 n2 n3 n4 n5 n6 t h0 h1
  · rw [hev "ease_in" (by decide) (by decide) (by decide) (by decide) (by decide)
      (by decide) (1/2) (by norm_num) (by norm_num)]
  · rw [hev "ease_in" (by decide) (by decide) (by decide) (by decide) (by decide)
      (by decide) (1/2) (by norm_num) (by norm_num)]
    norm_num
  · rw [hev "ease_in_out" (by decide) (by decide) (by decide) (by decide) (by decide)
      (by decide) (1/2) (by norm_num) (by norm_num)]
  · rw [hev "ease_in_out" (by decide) (by decide) (by decide) (by decide) (by decide)
      (by decide) (1/2) (by norm_num) (by norm_num)]
    norm_num

/-- Witness for C10 at `kind = "ease_out_cubic"`, `t = 1/2`. -/
theorem ease_default_for_unknown_names_witness :
    "ease_out_cubic" ∉ (["linear", "ease-in", "ease-out", "ease-in-out",
      "ease-out-cubic", "ease-out-back"] : List String) ∧
    ease (1/2) "ease_out_cubic" = 1 - (1 - 1/2) ^ 2 :=
  ⟨by decide,
   ease_default_for_unknown_names.1 (1/2) "ease_out_cubic" (by decide)
     (by norm_num) (by norm_num)⟩

/-! ## C4 — effect transform mapper table -/

/-- The piecewise bounce scale of `_get_frame_css` agrees with the spec
table's three-segment interpolation at every progress value. -/
lemma bounceScale_eq (p : ℚ) :
    (if p < 3/5 then (p / (3/5)) * (115/100)
     else if p < 4/5 then 115/100 - ((p - 3/5) / (1/5)) * (20/100)
     else 95/100 + ((p - 4/5) / (1/5)) * (5/100)) =
    (if p ≤ 3/5 then (115/100) * ((p - 0) / (3/5 - 0))
     else if p ≤ 4/5 then 115/100 + (95/100 - 115/100) * ((p - 3/5) / (4/5 - 3/5))
     else 95/100 + (1 - 95/100) * ((p - 4/5) / (1 - 4/5))) := by
  rcases lt_or_le p (3/5) with h1 | h1
  · rw [if_pos h1, if_pos h1.le]
    ring
  · rw [if_neg (not_lt.mpr h1)]
    rcases eq_or_lt_of_le h1 with heq | h1'
    · rw [← heq]
      norm_num
    · rw [if_neg (not_le.mpr h1')]
      rcases lt_or_le p (4/5) with h2 | h2
      · rw [if_pos h2, if_pos h2.le]
        ring
      · rw [if_neg (not_lt.mpr h2)]
        rcases eq_or_lt_of_le h2 with heq | h2'
        · rw [← heq]
          norm_num
        · rw [if_neg (not_le.mpr h2')]
          ring

/-- The bounce branch of `_get_frame_css` agrees with the spec table's
row at every progress value. -/
lemma bounce_eq_spec (p : ℚ) :
    getFrameCss "bounce_in" p = specEffectTable "bounce_in" p := by
  have h : getFrameCss "bounce_in" p =
      ⟨min (p * 2) 1, .scale
        (if p < 3/5 then (p / (3/5)) * (115/100)
         else if p < 4/5 then 115/100 - ((p - 3/5) / (1/5)) * (20/100)
         else 95/100 + ((p - 4/5) / (1/5)) * (5/100)), true⟩ := rfl
  have h' : specEffectTable "bounce_in" p =
      ⟨min (2 * p) 1, .scale
        (if p ≤ 3/5 then (115/100) * ((p - 0) / (3/5 - 0))
         else if p ≤ 4/5 then 115/100 + (95/100 - 115/100) * ((p - 3/5) / (4/5 - 3/5))
         else 95/100 + (1 - 95/100) * ((p - 4/5) / (1 - 4/5))), true⟩ := rfl
  rw [h, h', mul_comm p 2, bounceScale_eq p]

/-- **C4**: `_get_frame_css` realises the spec's closed-form table exactly for
every tabulated effect name and every progress; `fade_in` is opacity `p` with
no spatial transform; `bounce_in` has opacity `min(2p,1)` (hence `1` at
`p = 1/2`) and scale exactly `1.15` at `p = 0.6`; and every name outside the
table yields the `fade_in` state. -/
theorem getFrameCss_table :
    (∀ p : ℚ, ∀ name ∈ effectTableNames, getFrameCss name p = specEffectTable name p) ∧
    (∀ p : ℚ, getFrameCss "fade_in" p = ⟨p, .none, false⟩) ∧
    (getFrameCss "fade_in" 0).opacity = 0 ∧
    (getFrameCss "fade_in" 1).opacity = 1 ∧
    (∀ p : ℚ, (getFrameCss "bounce_in" p).opacity = min (p * 2) 1) ∧
    (getFrameCss "bounce_in" (1/2)).opacity = 1 ∧
    (getFrameCss "bounce_in" (3/5)).transform = .scale (115/100) ∧
    (∀ (p : ℚ) (name : String), name ∉ effectTableNames →
      getFrameCss name p = getFrameCss "fade_in" p) := by
  refine ⟨?_, fun p => rfl, rfl, rfl, fun p => rfl, ?_, ?_, ?_⟩
  · intro p name h
    fin_cases h
    · rfl
    · rfl
    · rfl
    · rfl
    · rfl
    · rfl
    · rfl
    · rfl
    · rfl
    · exact bounce_eq_spec p
  · show min ((1 : ℚ)/2 * 2) 1 = 1
    norm_num
  · show Transform.scale (if (3 : ℚ)/5 < 3/5 then ((3:ℚ)/5 / (3/5)) * (115/100)
      else if (3 : ℚ)/5 < 4/5 then 115/100 - (((3:ℚ)/5 - 3/5) / (1/5)) * (20/100)
      else 95/100 + (((3:ℚ)/5 - 4/5) / (1/5)) * (5/100)) = .scale (115/100)
    norm_num
  · intro p name h
    simp only [effectTableNames, List.mem_cons, List.not_mem_nil, or_false,
      not_or] at h
    obtain ⟨n1, n2, n3, n4, n5, n6, n7, n8, n9, n10⟩ := h
    show getFrameCss name p = ⟨p, .none, false⟩
    simp only [getFrameCss]
    rw [if_neg n1, if_neg n3, if_neg n4, if_neg n6, if_neg n7, if_neg n8,
      if_neg n9, if_neg n10, if_neg n2, if_neg n5]

/-- Witness for C4 at `name = "scale_up", p = 1/2` (table membership) and
`name = "wobble", p = 1/2` (fallback). -/
theorem getFrameCss_table_witness :
    getFrameCss "scale_up" (1/2) = specEffectTable "scale_up" (1/2) ∧
    getFrameCss "wobble" (1/2) = getFrameCss "fade_in" (1/2) :=
  ⟨getFrameCss_table.1 (1/2) "scale_up" (by decide),
   getFrameCss_table.2.2.2.2.2.2.2 (1/2) "wobble" (by decide)⟩

/-! ## C6 — stroke path sampler -/

/-- At least four parsed numbers give at least two coordinate pairs. -/
lemma pairUp_two_le {l : List ℚ} (h : 4 ≤ l.length) : 2 ≤ (pairUp l).length := by
  match l, h with
  | a :: b :: c :: d :: rest, _ => simp [pairUp]

/-- **C6**: on `"M0,0 L100,0"` with `num_points = 3` the sampler returns
exactly `(0,0), (50,0), (100,0)`; and whenever fewer than two coordinate
pairs parse from the path it returns the horizontal fallback line — which has
`num_points` points, all at mid-height `y = 640`, spanning x = `i*720/n`. -/
theorem extractPathPoints_spec :
    extractPathPoints "M0,0 L100,0" 3 = [(0, 0), (50, 0), (100, 0)] ∧
    (∀ (path : String) (num_points : ℕ),
      (pairUp (findNumbers path)).length < 2 →
      extractPathPoints path num_points = fallbackLine num_points) ∧
    (∀ num_points : ℕ, (fallbackLine num_points).length = num_points ∧
      ∀ pt ∈ fallbackLine num_points, pt.2 = 640) := by
  refine ⟨?_, ?_, ?_⟩
  · have h : findNumbers "M0,0 L100,0" = [0, 0, 100, 0] := by decide
    simp only [extractPathPoints, h]
    norm_num [pairUp, pyInt, List.range_succ]
  · intro path num_points h
    by_cases h4 : (findNumbers path).length < 4
    · simp only [extractPathPoints]
      rw [if_pos h4]
    · exact absurd (pairUp_two_le (not_lt.mp h4)) (not_le.mpr h)
  · intro num_points
    constructor
    · rw [fallbackLine, List.length_map, List.length_range]
    · intro pt hpt
      simp only [fallbackLine, List.mem_map] at hpt
      obtain ⟨i, _, rfl⟩ := hpt
      rfl

/-- Witness for C6's degenerate case at path `"M"`, `num_points = 2`. -/
theorem extractPathPoints_spec_witness :
    (pairUp (findNumbers "M")).length < 2 ∧
    extractPathPoints "M" 2 = fallbackLine 2 :=
  ⟨by decide, extractPathPoints_spec.2.1 "M" 2 (by decide)⟩

/-! ## C8 — reveal mask count -/

/-- **C8**: for a non-empty point list and progress in `[0,1]`, the mask marks
visible exactly the first `reveal_count` points, with
`reveal_count = max 1 ⌊progress * len⌋` — never zero, `1` at progress `0`,
and `len` at progress `1`. -/
theorem revealMask_spec (points : List (ℚ × ℚ)) (progress : ℚ)
    (hne : points ≠ []) (h0 : 0 ≤ progress) (_h1 : progress ≤ 1) :
    visiblePoints points progress =
      points.take (revealCount progress points.length) ∧
    revealCount progress points.length =
      max 1 (⌊progress * (points.length : ℚ)⌋).toNat ∧
    1 ≤ revealCount progress points.length ∧
    revealCount 0 points.length = 1 ∧
    revealCount 1 points.length = points.length := by
  have hlen : 1 ≤ points.length := List.length_pos.mpr hne
  refine ⟨rfl, ?_, le_max_left 1 _, ?_, ?_⟩
  · unfold revealCount
    rw [pyInt_eq_floor (mul_nonneg h0 (by positivity))]
  · norm_num [revealCount, pyInt]
  · unfold revealCount
    rw [pyInt_eq_floor (by positivity), one_mul, Int.floor_natCast,
      Int.toNat_natCast, max_eq_right hlen]

/-- Witness for C8 at `points = [(1,2)]`, `progress = 1/2`. -/
theorem revealMask_spec_witness :
    1 ≤ revealCount (1/2) ([((1 : ℚ), (2 : ℚ))]).length :=
  (revealMask_spec [(1, 2)] (1/2) (by decide) (by norm_num) (by norm_num)).2.2.1

/-! ## C7 — stroke reveal frame count and easing -/

/-- **C7, counterexample**: the code computes the stroke-reveal frame count
with `int()` truncation, not rounding: at `duration_ms = 1060, fps = 30` the
value `31.8` yields 31 mask frames, while `round` gives 32. -/
theorem strokeReveal_round_counterexample :
    ((strokeReveal 1060 30).maskProgresses).length ≠
      (round ((1060 : ℚ) / 1000 * 30)).toNat := by
  have ht : strokeTotalFrames 1060 30 = 31 := by
    norm_num [strokeTotalFrames, pyInt]
  have hl : ((strokeReveal 1060 30).maskProgresses).length = 31 := by
    simp only [strokeReveal, ht]
    rw [List.length_map, List.length_range]
    rfl
  rw [hl, round_eq]
  have hr : (⌊(1060 : ℚ) / 1000 * 30 + 1 / 2⌋).toNat = 32 := by
    have : (⌊(1060 : ℚ) / 1000 * 30 + 1 / 2⌋) = 32 := by norm_num
    rw [this]
    rfl
  rw [hr]
  norm_num

/-- **C7 (amended)**: the stroke-reveal pipeline produces one HQ raster plus
exactly `⌊duration_ms / 1000 * fps⌋` (truncated, not rounded) mask frames;
mask frame `f` uses `progress = f / max(total_frames - 1, 1)` (hence `0` when
`total_frames = 1`), always eased with ease-out-cubic — which agrees with
`ease · "ease-out-cubic"` on `[0,1]` — regardless of the layer's own
easing. -/
theorem strokeReveal_truncation_spec (duration_ms fps : ℚ)
    (hd : 0 ≤ duration_ms) (hf : 0 ≤ fps) :
    (strokeReveal duration_ms fps).hqRasters = 1 ∧
    ((strokeReveal duration_ms fps).maskProgresses).length =
      (⌊duration_ms / 1000 * fps⌋).toNat ∧
    (∀ k (hk : k < ((strokeReveal duration_ms fps).maskProgresses).length),
      ((strokeReveal duration_ms fps).maskProgresses).get ⟨k, hk⟩ =
        strokeEased ((k : ℚ) /
          ((max (strokeTotalFrames duration_ms fps - 1) 1 : ℤ) : ℚ))) ∧
    (∀ p : ℚ, 0 ≤ p → p ≤ 1 → strokeEased p = ease p "ease-out-cubic") ∧
    (strokeTotalFrames duration_ms fps = 1 →
      (strokeReveal duration_ms fps).maskProgresses = [strokeEased 0]) := by
  have hmask : (strokeReveal duration_ms fps).maskProgresses =
      (List.range (strokeTotalFrames duration_ms fps).toNat).map
        (fun f : ℕ => strokeEased ((f : ℚ) /
          ((max (strokeTotalFrames duration_ms fps - 1) 1 : ℤ) : ℚ))) := rfl
  refine ⟨rfl, ?_, ?_, ?_, ?_⟩
  · rw [hmask, List.length_map, List.length_range]
    unfold strokeTotalFrames
    rw [pyInt_eq_floor (mul_nonneg (div_nonneg hd (by norm_num)) hf)]
  · intro k hk
    simp only [hmask, List.get_eq_getElem, List.getElem_map, List.getElem_range]
  · intro p h0 h1
    have h : ease p "ease-out-cubic" = 1 - (1 - clamp01 p) ^ 3 := rfl
    rw [h, clamp01_eq_self h0 h1]
    rfl
  · intro h1
    rw [hmask, h1]
    rw [show (1 : ℤ).toNat = 1 from rfl, show List.range 1 = [0] from rfl]
    simp only [List.map_cons, List.map_nil, Nat.cast_zero]
    rw [show ((1 : ℤ) - 1) ⊔ 1 = 1 by omega]
    norm_num

/-- Witness for C7's amended theorem at `duration_ms = 1000, fps = 30`. -/
theorem strokeReveal_truncation_spec_witness :
    ((strokeReveal 1000 30).maskProgresses).length =
      (⌊(1000 : ℚ) / 1000 * 30⌋).toNat :=
  (strokeReveal_truncation_spec 1000 30 (by norm_num) (by norm_num)).2.1

/-! ## C9 — scene compositor loop -/

/-- The scene loop splits the input layers into rendered non-stroke layers
(in order), stroke-reveal ids (in order), and one warning per skipped
empty-html non-stroke layer. -/
lemma renderLoop_eq (layers : List Layer) :
    renderLoop layers =
      ((layers.filter (fun l => !(l.type.getD "unknown" == "stroke_reveal") &&
          !(l.html.getD "" == ""))).map renderLayerEntry,
       (layers.filter (fun l => l.type.getD "unknown" == "stroke_reveal")).map
         (fun l => l.id.getD "stroke"),
       (layers.filter (fun l => !(l.type.getD "unknown" == "stroke_reveal") &&
          (l.html.getD "" == ""))).length) := by
  induction layers with
  | nil => rfl
  | cons layer rest ih =>
    simp only [renderLoop, ih]
    by_cases h1 : layer.type.getD "unknown" = "stroke_reveal"
    · simp [List.filter_cons, h1]
    · by_cases h2 : layer.html.getD "" = ""
      · simp [List.filter_cons, h1, h2]
      · simp [List.filter_cons, h1, h2]

/-- **C9**: a non-stroke layer with missing/empty `html` is skipped with one
recorded warning while the render continues; the result's `layers` are
exactly the remaining non-stroke layers in input order, and `stroke_reveals`
collects the stroke layers separately, preserving input order. -/
theorem renderSceneLayers_spec (scene_id : String) (layers : List Layer) :
    (renderSceneLayers scene_id layers).layers =
      (layers.filter (fun l => !(l.type.getD "unknown" == "stroke_reveal") &&
        !(l.html.getD "" == ""))).map renderLayerEntry ∧
    (renderSceneLayers scene_id layers).stroke_reveals =
      (layers.filter (fun l => l.type.getD "unknown" == "stroke_reveal")).map
        (fun l => l.id.getD "stroke") ∧
    (renderSceneLayers scene_id layers).warnings =
      (layers.filter (fun l => !(l.type.getD "unknown" == "stroke_reveal") &&
        (l.html.getD "" == ""))).length := by
  unfold renderSceneLayers
  rw [renderLoop_eq]
  exact ⟨rfl, rfl, rfl⟩

/-! ## C2 — id/z_index auto-assignment -/

/-- **C2, counterexample**: the Scene Compositor itself does not assign
`"layer_{i}_{j}"` / `100 + 50*j`: rendering two layers that lack `id` and
`z_index` yields `id = "unknown"` and `z_index = 100` for both. -/
theorem compositor_no_autoassign_counterexample :
    ((renderSceneLayers "scene_0" [sampleLayer, sampleLayer]).layers.map
      (fun r => (r.id, r.z_index))) = [("unknown", 100), ("unknown", 100)] ∧
    ("unknown" : String) ≠ "layer_0_1" ∧ (100 : ℤ) ≠ 100 + 50 * 1 := by
  refine ⟨by rfl, by decide, by decide⟩

/-- What `validateLayersFrom` produces on success, for any start index. -/
lemma validateLayersFrom_ok (i : ℕ) (ls : List Layer) :
    ∀ (j : ℕ) (out : List Layer), validateLayersFrom i j ls = .ok out →
      out = ls.mapIdx (fun k l =>
        { l with
          z_index := some (l.z_index.getD (100 + ((j + k : ℕ) : ℤ) * 50)),
          id := some (l.id.getD ("layer_" ++ toString i ++ "_" ++ toString (j + k))) }) := by
  induction ls with
  | nil =>
    intro j out h
    simp only [validateLayersFrom] at h
    cases h
    rfl
  | cons l rest ih =>
    intro j out h
    simp only [validateLayersFrom] at h
    by_cases hc : l.html.isNone ∧ l.type ≠ some "stroke_reveal"
    · rw [validateLayer, if_pos hc] at h
      simp at h
    · rw [validateLayer, if_neg hc] at h
      cases hr : validateLayersFrom i (j + 1) rest with
      | error e =>
        rw [hr] at h
        simp at h
      | ok out' =>
        rw [hr] at h
        simp only [Except.ok.injEq] at h
        have hrec := ih (j + 1) out' hr
        rw [← h, hrec, List.mapIdx_cons]
        have hadd : ∀ k : ℕ, j + 1 + k = j + (k + 1) := fun k => by omega
        simp only [hadd, Nat.add_zero]

/-- **C2 (amended)**: the deterministic assignment
`id = "layer_{i}_{j}"`, `z_index = 100 + 50*j` for absent fields is performed
by the director's validation step (`_validate_result`) on its first 15 layers
per scene, not by the Scene Compositor; the compositor substitutes
`"unknown"` for an absent `id` and `100` for an absent `z_index`,
deterministically, never randomly. -/
theorem layerNormalization_spec :
    (∀ (i : ℕ) (layers out : List Layer),
      validateSceneLayers i layers = .ok out →
      out = (layers.take 15).mapIdx (fun j l =>
        { l with
          z_index := some (l.z_index.getD (100 + (j : ℤ) * 50)),
          id := some (l.id.getD ("layer_" ++ toString i ++ "_" ++ toString j)) })) ∧
    (∀ (scene_id : String) (layers : List Layer),
      (renderSceneLayers scene_id layers).layers.map (fun r => (r.id, r.z_index)) =
        (layers.filter (fun l => !(l.type.getD "unknown" == "stroke_reveal") &&
          !(l.html.getD "" == ""))).map
          (fun l => (l.id.getD "unknown", l.z_index.getD 100))) := by
  constructor
  · intro i layers out h
    have hres := validateLayersFrom_ok i (layers.take 15) 0 out h
    simpa using hres
  · intro sid layers
    unfold renderSceneLayers
    rw [renderLoop_eq]
    simp only [List.map_map]
    rfl

/-- Witness for C2's amended theorem: one layer lacking `id`/`z_index` gets
`id = "layer_0_0"`, `z_index = 100` from the validation step. -/
theorem layerNormalization_spec_witness :
    validateSceneLayers 0 [sampleLayer] =
      .ok [{ sampleLayer with z_index := some 100, id := some "layer_0_0" }] ∧
    [{ sampleLayer with z_index := some 100, id := some "layer_0_0" }] =
      ([sampleLayer].take 15).mapIdx (fun j l =>
        { l with
          z_index := some (l.z_index.getD (100 + (j : ℤ) * 50)),
          id := some (l.id.getD ("layer_" ++ toString 0 ++ "_" ++ toString j)) }) :=
  ⟨by rfl, layerNormalization_spec.1 0 [sampleLayer] _ (by rfl)⟩
